import Mathlib

/-!
Shallow embedding of the proctoring core of the protorAI client.

Sources embedded here:
- `src/hooks/useProctoring.ts` — the proctoring hook: violation counters and
  log, media-permission supervision (`startMedia` / `validateTracks`),
  fullscreen and visibility handlers, the frame-delivery retry loop
  (`sendImageToBackend`), `exportViolationLog`, `cleanupMedia`.
- `src/pages/Quiz.tsx` — the quiz page, which inlines the same monitors
  (identical handler bodies) and adds `handleSubmit`, the submission gate.

The browser event loop is single threaded; every handler body runs to
completion against the latest committed state (all counter writes in the
source use functional React updates, and each handler is re-registered via
its dependency array whenever a closed-over counter changes).  We therefore
model a session as a state record and each externally triggered handler
invocation as one atomic step.
-/

namespace Proctoring

/-- The two violation kinds, from the union type
`tab-switch | fullscreen-exit` of `ViolationLog` in useProctoring.ts. -/
inductive VKind where
  | tabSwitch
  | fullscreenExit
deriving DecidableEq, Repr

/-- One entry of the violation log (`ViolationLog` in the source):
a kind plus an ISO-8601 timestamp string. -/
structure ViolationEntry where
  type : VKind
  timestamp : String
deriving DecidableEq, Repr

/-- A toast notification as fired through `useToast` in the source:
optional title, description, optional variant. -/
structure Toast where
  title : Option String
  description : String
  variant : Option String
deriving DecidableEq, Repr

/-- The per-session state: the union of the React state of the
`useProctoring` hook (useProctoring.ts lines 44-55) and the quiz page state
that the monitors and the submission gate read (`isSubmitted`, `score` in
Quiz.tsx).  `score` is modelled as a rational; the source computes
`(correctAnswers / total) * 100` as a JS number. -/
structure SessionState where
  permissionsGranted : Bool
  permissionsLoading : Bool
  showPermissionWarning : Bool
  permissionViolated : Bool
  browserSupported : Bool
  isFullscreen : Bool
  showFullscreenWarning : Bool
  tabSwitchCount : Nat
  fullscreenExitCount : Nat
  violationLog : List ViolationEntry
  sessionId : String
  imageCaptureFailures : Nat
  isSubmitted : Bool
  score : Option ℚ
deriving DecidableEq, Repr

/-- `totalViolations = tabSwitchCount + fullscreenExitCount`
(useProctoring.ts line 66, recomputed identically in Quiz.tsx). -/
def totalViolations (s : SessionState) : Nat :=
  s.tabSwitchCount + s.fullscreenExitCount

/-- The initial state of a fresh session: the `useState` defaults of
useProctoring.ts lines 44-55 and Quiz.tsx lines 31-42, for a given
generated session id. -/
def initState (sid : String) : SessionState :=
  { permissionsGranted := false
    permissionsLoading := true
    showPermissionWarning := false
    permissionViolated := false
    browserSupported := true
    isFullscreen := false
    showFullscreenWarning := false
    tabSwitchCount := 0
    fullscreenExitCount := 0
    violationLog := []
    sessionId := sid
    imageCaptureFailures := 0
    isSubmitted := false
    score := none }

/-- Toast fired by the visibility handler at `newCount === 1`. -/
def tabFirstToast : Toast :=
  { title := some "⚠️ Warning"
    description := "Tab switching detected - 1st violation"
    variant := some "destructive" }

/-- Toast fired by the visibility handler at `newCount === 2`. -/
def tabSecondToast : Toast :=
  { title := some "⚠️ Warning"
    description := "Tab switching detected - 2nd violation. One more will invalidate your exam"
    variant := some "destructive" }

/-- Toast fired by the fullscreen handler at `newCount === 1`. -/
def fsFirstToast : Toast :=
  { title := some "⚠️ Warning"
    description := "Fullscreen mode exited - 1st violation"
    variant := some "destructive" }

/-- Toast fired by the fullscreen handler at `newCount === 2`. -/
def fsSecondToast : Toast :=
  { title := some "⚠️ Warning"
    description := "Fullscreen mode exited - 2nd violation. One more will invalidate your exam"
    variant := some "destructive" }

/-- The "Exam Invalidated" toast of both handlers. -/
def invalidatedToast : Toast :=
  { title := some "⚠️ Exam Invalidated"
    description := "Quiz submission blocked due to multiple violations"
    variant := some "destructive" }

/-- The per-write warning classification shared by both violation handlers
(useProctoring.ts lines 261-279 and 308-326): an if/else-if chain on the
post-write per-kind counter `newCount`, with the final branch guarded by the
post-write running total. -/
def classifyWarning (first second : Toast) (newCount currentTotal : Nat) :
    List Toast :=
  if newCount = 1 then [first]
  else if newCount = 2 then [second]
  else if 3 ≤ currentTotal then [invalidatedToast]
  else []

/-- `handleVisibilityChange` (useProctoring.ts lines 250-284, identical in
Quiz.tsx lines 169-203): when the page becomes hidden, the session is not
submitted and permission is granted, increment `tabSwitchCount`, append a
timestamped `tab-switch` entry, and fire the warning classified from the
new per-kind count and the post-write total. -/
def handleVisibilityChange (s : SessionState) (hidden : Bool) (ts : String) :
    SessionState × List Toast :=
  if hidden && !s.isSubmitted && s.permissionsGranted then
    let newCount := s.tabSwitchCount + 1
    let currentTotal := newCount + s.fullscreenExitCount
    ({ s with
        tabSwitchCount := newCount
        violationLog := s.violationLog ++ [⟨VKind.tabSwitch, ts⟩] },
     classifyWarning tabFirstToast tabSecondToast newCount currentTotal)
  else (s, [])

/-- `handleFullscreenChange` (useProctoring.ts lines 292-331, identical in
Quiz.tsx lines 225-264): always records the current fullscreen flag; when
fullscreen was exited, the session is not submitted and permission is
granted, set the fullscreen warning, increment `fullscreenExitCount`,
append a timestamped `fullscreen-exit` entry, and fire the classified
warning. -/
def handleFullscreenChange (s : SessionState) (nowFullscreen : Bool)
    (ts : String) : SessionState × List Toast :=
  let s := { s with isFullscreen := nowFullscreen }
  if !nowFullscreen && !s.isSubmitted && s.permissionsGranted then
    let newCount := s.fullscreenExitCount + 1
    let currentTotal := s.tabSwitchCount + newCount
    ({ s with
        showFullscreenWarning := true
        fullscreenExitCount := newCount
        violationLog := s.violationLog ++ [⟨VKind.fullscreenExit, ts⟩] },
     classifyWarning fsFirstToast fsSecondToast newCount currentTotal)
  else (s, [])

/-- `validateTracks` (useProctoring.ts lines 195-216, identical in Quiz.tsx):
the 2-second liveness poll body.  `streamPresent` models
`streamRef.current !== null`; `videoEnabled` / `audioEnabled` model the
existence of an enabled live track of each kind. -/
def validateTracks (s : SessionState)
    (streamPresent videoEnabled audioEnabled : Bool) : SessionState :=
  if !streamPresent then
    { s with
        permissionsGranted := false
        showPermissionWarning := true
        permissionViolated := s.permissionViolated || !s.isSubmitted }
  else
    let bothEnabled := videoEnabled && audioEnabled
    { s with
        permissionsGranted := bothEnabled
        showPermissionWarning := !bothEnabled
        permissionViolated :=
          s.permissionViolated || (!bothEnabled && !s.isSubmitted) }

/-- The "Permission Denied" toast of the failure path of `startMedia`. -/
def permissionDeniedToast : Toast :=
  { title := some "Permission Denied"
    description := "Camera and microphone access are required for the quiz."
    variant := some "destructive" }

/-- Net effect of the unsupported-browser path of `startMedia`
(useProctoring.ts lines 174-180). -/
def startMediaUnsupported (s : SessionState) : SessionState :=
  { s with
      browserSupported := false
      showPermissionWarning := true
      permissionsGranted := false
      permissionsLoading := false }

/-- Net effect of the successful acquisition path of `startMedia`
(useProctoring.ts lines 187-193); the immediate `validateTracks()` call and
the poll it starts are modelled as separate `validateTracks` steps. -/
def startMediaSuccess (s : SessionState) : SessionState :=
  { s with
      permissionsGranted := true
      showPermissionWarning := false
      permissionsLoading := false }

/-- Net effect of the catch path of `startMedia` — acquisition failure
(useProctoring.ts lines 221-233). -/
def startMediaFailure (s : SessionState) : SessionState × List Toast :=
  ({ s with
      permissionsGranted := false
      showPermissionWarning := true
      permissionsLoading := false
      permissionViolated := true },
   [permissionDeniedToast])

/-- Net effect of a successful `enterFullscreen`
(useProctoring.ts lines 238-242); the failure path changes no state. -/
def enterFullscreenSuccess (s : SessionState) : SessionState :=
  { s with isFullscreen := true, showFullscreenWarning := false }

/-- Toast of the violation-count refusal in `handleSubmit`
(Quiz.tsx 347-354). -/
def blockedViolationsToast : Toast :=
  { title := some "Submission Blocked"
    description := "Quiz cannot be submitted due to multiple proctoring violations (tab switching/fullscreen exits)."
    variant := some "destructive" }

/-- Toast of the permission-violation refusal in `handleSubmit`
(Quiz.tsx 356-363). -/
def blockedPermissionToast : Toast :=
  { title := some "Submission Blocked"
    description := "Quiz cannot be submitted due to permission violations during the exam."
    variant := some "destructive" }

/-- Toast of the inactive-media refusal in `handleSubmit`
(Quiz.tsx 365-372). -/
def blockedMediaToast : Toast :=
  { title := some "Submission Blocked"
    description := "Camera and microphone must be active to submit the quiz."
    variant := some "destructive" }

/-- The success toast of `handleSubmit` (Quiz.tsx 390-393); the source
interpolates the score into the description, elided here to the raw
counts (number formatting of the percentage is presentational only). -/
def submittedToast (correct numQuestions : Nat) : Toast :=
  { title := some "Quiz Submitted!"
    description := "You scored " ++ toString correct ++ "/" ++
      toString numQuestions
    variant := none }

/-- `handleSubmit` (Quiz.tsx lines 342-394).  `quizDataPresent` models
`quizData !== null`; `correct` is the number of selected answers matching,
`numQuestions` the quiz length.  Refusal branches return the state
unchanged with the toast of that branch; the success branch records the score
and marks the session submitted (its `cleanupMedia()` call touches only
timer/stream refs, modelled separately in `MediaTimers`). -/
def handleSubmit (s : SessionState) (quizDataPresent : Bool)
    (correct numQuestions : Nat) : SessionState × List Toast :=
  if !quizDataPresent then (s, [])
  else if 3 ≤ totalViolations s then (s, [blockedViolationsToast])
  else if s.permissionViolated then (s, [blockedPermissionToast])
  else if !s.permissionsGranted then (s, [blockedMediaToast])
  else
    let calculatedScore : ℚ := ((correct : ℚ) / (numQuestions : ℚ)) * 100
    ({ s with score := some calculatedScore, isSubmitted := true },
     [submittedToast correct numQuestions])

/-- One externally triggered handler invocation: the alphabet of session
events.  Each constructor carries the platform inputs its handler reads. -/
inductive Event where
  | visibilityChange (hidden : Bool) (ts : String)
  | fullscreenChange (nowFullscreen : Bool) (ts : String)
  | validate (streamPresent videoEnabled audioEnabled : Bool)
  | mediaUnsupported
  | mediaSuccess
  | mediaFailure
  | fullscreenEntered
  | deliverySuccess
  | deliveryFailure
  | submit (quizDataPresent : Bool) (correct numQuestions : Nat)
  | exportLog
deriving DecidableEq, Repr

/-- One step of the session: dispatch an event to its handler.
`deliverySuccess` / `deliveryFailure` are the `setImageCaptureFailures`
writes of one `sendImageToBackend` attempt (useProctoring.ts lines 133 and
136); `exportLog` (`exportViolationLog`) changes no session state — it only
writes localStorage, modelled by `exportViolationLog` below. -/
def step (s : SessionState) (e : Event) : SessionState × List Toast :=
  match e with
  | .visibilityChange hidden ts => handleVisibilityChange s hidden ts
  | .fullscreenChange nowFs ts => handleFullscreenChange s nowFs ts
  | .validate sp v a => (validateTracks s sp v a, [])
  | .mediaUnsupported => (startMediaUnsupported s, [])
  | .mediaSuccess => (startMediaSuccess s, [])
  | .mediaFailure => startMediaFailure s
  | .fullscreenEntered => (enterFullscreenSuccess s, [])
  | .deliverySuccess => ({ s with imageCaptureFailures := 0 }, [])
  | .deliveryFailure =>
      ({ s with imageCaptureFailures := s.imageCaptureFailures + 1 }, [])
  | .submit q c n => handleSubmit s q c n
  | .exportLog => (s, [])

/-- Run a sequence of events from a state (discarding toasts). -/
def run (s : SessionState) : List Event → SessionState
  | [] => s
  | e :: es => run (step s e).1 es

/-- A state is reachable when it is produced by some run from the fresh
state of some session id. -/
def Reachable (s : SessionState) : Prop :=
  ∃ sid events, s = run (initState sid) events

/-- The fixed retry backoff of `sendImageToBackend`:
`setTimeout(..., 2000)` (useProctoring.ts line 139), in milliseconds. -/
def retryBackoffMs : Nat := 2000

/-- Result of delivering one captured frame: the final
`imageCaptureFailures` counter, the number of fetch attempts made, and the
backoff delays of the retries that were scheduled. -/
structure DeliveryResult where
  failures : Nat
  attempts : Nat
  scheduledDelays : List Nat
deriving DecidableEq, Repr

/-- `sendImageToBackend` (useProctoring.ts lines 103-142), as the
per-frame retry orchestration: `outcomes` supplies whether each successive
fetch of this frame succeeds (`response.ok`).  A successful attempt resets
the failure counter to 0 and stops; a failed attempt increments it by one
and, while `retryCount < 2`, schedules one retry after the fixed 2-second
backoff.  An empty `outcomes` means no response arrives, so nothing more
runs. -/
def sendImageToBackend : List Bool → Nat → Nat → DeliveryResult
  | [], _, failures => ⟨failures, 0, []⟩
  | ok :: rest, retryCount, failures =>
    if ok then ⟨0, 1, []⟩
    else if retryCount < 2 then
      let r := sendImageToBackend rest (retryCount + 1) (failures + 1)
      ⟨r.failures, r.attempts + 1, retryBackoffMs :: r.scheduledDelays⟩
    else ⟨failures + 1, 1, []⟩

/-- The timer handles a session holds.  `intervalRef` is the 2-second
liveness poll, `captureIntervalRef` the 4-second capture interval
(useProctoring.ts lines 62-63); `retryTimeoutPending` records whether a
frame-delivery retry `setTimeout` (line 139) is currently scheduled — the
source discards the id of that timeout, so no ref to it exists. -/
structure MediaTimers where
  intervalRef : Bool
  captureIntervalRef : Bool
  retryTimeoutPending : Bool
deriving DecidableEq, Repr

/-- `cleanupMedia` (useProctoring.ts lines 68-75, identical in Quiz.tsx):
clears the liveness poll interval and the capture interval (and stops the
tracks of the stream).  It holds no handle to the delivery-retry timeout, so
that timer is untouched. -/
def cleanupMedia (t : MediaTimers) : MediaTimers :=
  { t with intervalRef := false, captureIntervalRef := false }

/-- The exported integrity report: the `exportData` object literal of
`exportViolationLog` (useProctoring.ts lines 146-156). -/
structure ExportData where
  sessionId : String
  timestamp : String
  totalViolations : Nat
  tabSwitchCount : Nat
  fullscreenExitCount : Nat
  violationLog : List ViolationEntry
  permissionViolated : Bool
  quizCompleted : Bool
  score : Option ℚ
deriving DecidableEq, Repr

/-- JavaScript `score || null` (useProctoring.ts line 155): `undefined`,
`null` and the falsy number `0` all coerce to `null`. -/
def scoreOrNull : Option ℚ → Option ℚ
  | none => none
  | some q => if q = 0 then none else some q

/-- `exportViolationLog` (useProctoring.ts lines 144-168): assembles the
report from the state at call time (recomputing `totalViolations` as
`tabSwitchCount + fullscreenExitCount`) and persists its serialization in
localStorage under the returned key. -/
def exportViolationLog (s : SessionState) (now : String)
    (score : Option ℚ) : ExportData × String :=
  ({ sessionId := s.sessionId
     timestamp := now
     totalViolations := s.tabSwitchCount + s.fullscreenExitCount
     tabSwitchCount := s.tabSwitchCount
     fullscreenExitCount := s.fullscreenExitCount
     violationLog := s.violationLog
     permissionViolated := s.permissionViolated
     quizCompleted := s.isSubmitted
     score := scoreOrNull score },
   "violation-log-" ++ s.sessionId)

/-- Number of log entries of one kind. -/
def countKind (k : VKind) (log : List ViolationEntry) : Nat :=
  log.countP (fun v => v.type == k)

/-- The ledger invariant: each counter equals the number of log entries of
its kind, and the log length is the sum of the counters. -/
def LedgerInv (s : SessionState) : Prop :=
  s.tabSwitchCount = countKind VKind.tabSwitch s.violationLog ∧
  s.fullscreenExitCount = countKind VKind.fullscreenExit s.violationLog ∧
  s.violationLog.length = s.tabSwitchCount + s.fullscreenExitCount

lemma ledgerInv_init (sid : String) : LedgerInv (initState sid) := by
  simp [LedgerInv, initState, countKind]

lemma ledgerInv_step (s : SessionState) (e : Event) (h : LedgerInv s) :
    LedgerInv (step s e).1 := by
  obtain ⟨h1, h2, h3⟩ := h
  cases e <;>
    simp only [step, handleVisibilityChange, handleFullscreenChange,
      validateTracks, startMediaUnsupported, startMediaSuccess,
      startMediaFailure, enterFullscreenSuccess, handleSubmit] <;>
    (repeat' split) <;>
    simp_all [LedgerInv, countKind, List.countP_append, List.countP_cons] <;>
    omega

lemma ledgerInv_run (s : SessionState) (events : List Event)
    (h : LedgerInv s) : LedgerInv (run s events) := by
  induction events generalizing s with
  | nil => exact h
  | cons e es ih => exact ih _ (ledgerInv_step s e h)

lemma step_log_extends (s : SessionState) (e : Event) :
    ∃ suffix, (step s e).1.violationLog = s.violationLog ++ suffix := by
  cases e <;>
    simp only [step, handleVisibilityChange, handleFullscreenChange,
      validateTracks, startMediaUnsupported, startMediaSuccess,
      startMediaFailure, enterFullscreenSuccess, handleSubmit] <;>
    (repeat' split) <;>
    first
      | exact ⟨[], (List.append_nil _).symm⟩
      | exact ⟨_, rfl⟩

lemma step_counters_mono (s : SessionState) (e : Event) :
    s.tabSwitchCount ≤ (step s e).1.tabSwitchCount ∧
    s.fullscreenExitCount ≤ (step s e).1.fullscreenExitCount := by
  cases e <;>
    simp only [step, handleVisibilityChange, handleFullscreenChange,
      validateTracks, startMediaUnsupported, startMediaSuccess,
      startMediaFailure, enterFullscreenSuccess, handleSubmit] <;>
    (repeat' split) <;> simp

lemma run_counters_mono (s : SessionState) (events : List Event) :
    s.tabSwitchCount ≤ (run s events).tabSwitchCount ∧
    s.fullscreenExitCount ≤ (run s events).fullscreenExitCount := by
  induction events generalizing s with
  | nil => exact ⟨le_refl _, le_refl _⟩
  | cons e es ih =>
    obtain ⟨ht, hf⟩ := step_counters_mono s e
    obtain ⟨ht2, hf2⟩ := ih (step s e).1
    exact ⟨le_trans ht ht2, le_trans hf hf2⟩

lemma step_total_mono (s : SessionState) (e : Event) :
    totalViolations s ≤ totalViolations (step s e).1 := by
  obtain ⟨ht, hf⟩ := step_counters_mono s e
  unfold totalViolations
  omega

lemma step_blocked_not_submitted (s : SessionState) (e : Event)
    (h3 : 3 ≤ totalViolations s) (hsub : s.isSubmitted = false) :
    (step s e).1.isSubmitted = false := by
  cases e <;>
    simp only [step, handleVisibilityChange, handleFullscreenChange,
      validateTracks, startMediaUnsupported, startMediaSuccess,
      startMediaFailure, enterFullscreenSuccess, handleSubmit] <;>
    (repeat' split) <;> simp_all

lemma run_blocked (s : SessionState) (events : List Event)
    (h3 : 3 ≤ totalViolations s) (hsub : s.isSubmitted = false) :
    3 ≤ totalViolations (run s events) ∧
    (run s events).isSubmitted = false := by
  induction events generalizing s with
  | nil => exact ⟨h3, hsub⟩
  | cons e es ih =>
    exact ih (step s e).1 (le_trans h3 (step_total_mono s e))
      (step_blocked_not_submitted s e h3 hsub)

lemma step_permViolated_mono (s : SessionState) (e : Event)
    (h : s.permissionViolated = true) :
    (step s e).1.permissionViolated = true := by
  cases e <;>
    simp only [step, handleVisibilityChange, handleFullscreenChange,
      validateTracks, startMediaUnsupported, startMediaSuccess,
      startMediaFailure, enterFullscreenSuccess, handleSubmit] <;>
    (repeat' split) <;> simp_all

lemma run_permViolated_mono (s : SessionState) (events : List Event)
    (h : s.permissionViolated = true) :
    (run s events).permissionViolated = true := by
  induction events generalizing s with
  | nil => exact h
  | cons e es ih => exact ih _ (step_permViolated_mono s e h)

/-- C1: once the running total of violations reaches 3 in an unsubmitted
session, it never decreases again — no subsequent event decrements either
counter — and no sequence of subsequent events (further violations,
permission changes, deliveries, exports, submit attempts) ever marks the
session submitted: `handleSubmit` refuses while the total is at least 3. -/
theorem C1_blocked_permanent (s : SessionState) (events : List Event)
    (h3 : 3 ≤ totalViolations s) (hsub : s.isSubmitted = false) :
    3 ≤ totalViolations (run s events) ∧
    (run s events).isSubmitted = false ∧
    s.tabSwitchCount ≤ (run s events).tabSwitchCount ∧
    s.fullscreenExitCount ≤ (run s events).fullscreenExitCount := by
  obtain ⟨ha, hb⟩ := run_blocked s events h3 hsub
  obtain ⟨hc, hd⟩ := run_counters_mono s events
  exact ⟨ha, hb, hc, hd⟩

/-- Witness for C1 at a concrete blocked state (2 tab switches, 1
fullscreen exit) and a concrete event sequence that includes further
violations, a permission failure, a delivery failure, an export and a
submit attempt. -/
theorem C1_blocked_permanent_witness :
    3 ≤ totalViolations
        { initState "sid-1" with tabSwitchCount := 2, fullscreenExitCount := 1 } ∧
    ({ initState "sid-1" with
        tabSwitchCount := 2, fullscreenExitCount := 1 } : SessionState).isSubmitted
      = false ∧
    (3 ≤ totalViolations
        (run { initState "sid-1" with tabSwitchCount := 2, fullscreenExitCount := 1 }
          [Event.visibilityChange true "t1", Event.mediaFailure,
           Event.deliveryFailure, Event.exportLog, Event.submit true 3 4]) ∧
      (run { initState "sid-1" with tabSwitchCount := 2, fullscreenExitCount := 1 }
          [Event.visibilityChange true "t1", Event.mediaFailure,
           Event.deliveryFailure, Event.exportLog, Event.submit true 3 4]).isSubmitted
        = false ∧
      2 ≤ (run { initState "sid-1" with tabSwitchCount := 2, fullscreenExitCount := 1 }
          [Event.visibilityChange true "t1", Event.mediaFailure,
           Event.deliveryFailure, Event.exportLog, Event.submit true 3 4]).tabSwitchCount ∧
      1 ≤ (run { initState "sid-1" with tabSwitchCount := 2, fullscreenExitCount := 1 }
          [Event.visibilityChange true "t1", Event.mediaFailure,
           Event.deliveryFailure, Event.exportLog, Event.submit true 3 4]).fullscreenExitCount) :=
  ⟨by decide, by decide,
    C1_blocked_permanent
      { initState "sid-1" with tabSwitchCount := 2, fullscreenExitCount := 1 }
      [Event.visibilityChange true "t1", Event.mediaFailure,
       Event.deliveryFailure, Event.exportLog, Event.submit true 3 4]
      (by decide) (by decide)⟩

/-- C2: along every event sequence from a fresh session — any interleaving
of the two recording handlers with the other monitors — `tabSwitchCount`
equals the number of tab-switch entries in the log, `fullscreenExitCount`
the number of fullscreen-exit entries, and `totalViolations` equals their
sum, which is the total number of recorded events; moreover no step ever
removes a log entry or decrements a counter. -/
theorem C2_ledger_counts (sid : String) (events : List Event) :
    (run (initState sid) events).tabSwitchCount
        = countKind VKind.tabSwitch (run (initState sid) events).violationLog ∧
    (run (initState sid) events).fullscreenExitCount
        = countKind VKind.fullscreenExit (run (initState sid) events).violationLog ∧
    totalViolations (run (initState sid) events)
        = (run (initState sid) events).violationLog.length ∧
    (∀ t : SessionState, ∀ e : Event,
      t.tabSwitchCount ≤ (step t e).1.tabSwitchCount ∧
      t.fullscreenExitCount ≤ (step t e).1.fullscreenExitCount ∧
      ∃ suffix, (step t e).1.violationLog = t.violationLog ++ suffix) := by
  obtain ⟨h1, h2, h3⟩ := ledgerInv_run (initState sid) events (ledgerInv_init sid)
  refine ⟨h1, h2, ?_, ?_⟩
  · unfold totalViolations
    omega
  · intro t e
    obtain ⟨ht, hf⟩ := step_counters_mono t e
    exact ⟨ht, hf, step_log_extends t e⟩

/-- C6: the `permissionViolated` flag starts false, is never cleared by any
event of the session (re-acquisition via `startMedia` included, whose
success path does not touch it), and is set by an acquisition failure, and
by a liveness-poll failure (missing stream, or not both tracks live and
enabled) while the session is unsubmitted. -/
theorem C6_permission_violated_sticky (sid : String) :
    (initState sid).permissionViolated = false ∧
    (∀ s : SessionState, ∀ events : List Event, s.permissionViolated = true →
      (run s events).permissionViolated = true) ∧
    (∀ s : SessionState, (startMediaFailure s).1.permissionViolated = true) ∧
    (∀ s : SessionState, ∀ sp v a : Bool, s.isSubmitted = false →
      (sp && v && a) = false →
      (validateTracks s sp v a).permissionViolated = true) ∧
    (∀ s : SessionState,
      (startMediaSuccess s).permissionViolated = s.permissionViolated) := by
  refine ⟨rfl, run_permViolated_mono, fun s => rfl, ?_, fun s => rfl⟩
  intro s sp v a hsub hfail
  cases sp <;> cases v <;> cases a <;> simp_all [validateTracks]

/-- Witness for C6: stickiness across a concrete run that includes a
successful re-acquisition, and the two set-true paths at concrete inputs. -/
theorem C6_permission_violated_sticky_witness :
    (initState "sid-2").permissionViolated = false ∧
    (run { initState "sid-2" with permissionViolated := true }
        [Event.mediaSuccess, Event.validate true true true,
         Event.exportLog]).permissionViolated = true ∧
    (startMediaFailure (initState "sid-2")).1.permissionViolated = true ∧
    (validateTracks (initState "sid-2") true true false).permissionViolated
      = true ∧
    (startMediaSuccess (initState "sid-2")).permissionViolated
      = (initState "sid-2").permissionViolated :=
  ⟨(C6_permission_violated_sticky "sid-2").1,
   (C6_permission_violated_sticky "sid-2").2.1 _ _ rfl,
   (C6_permission_violated_sticky "sid-2").2.2.1 _,
   (C6_permission_violated_sticky "sid-2").2.2.2.1 _ true true false rfl rfl,
   (C6_permission_violated_sticky "sid-2").2.2.2.2 _⟩

/-- C9: the visibility handler records a tab-switch violation — appending
exactly one timestamped entry, incrementing the counter and firing the
classified warning — exactly when the page became hidden, the session is
not submitted, and media permission is currently granted; in every other
case (in particular a backgrounding while permission is already lost) it
changes nothing and fires nothing. -/
theorem C9_focus_guard (s : SessionState) (hidden : Bool) (ts : String) :
    (handleVisibilityChange s hidden ts
        = ({ s with
              tabSwitchCount := s.tabSwitchCount + 1,
              violationLog := s.violationLog ++ [⟨VKind.tabSwitch, ts⟩] },
           classifyWarning tabFirstToast tabSecondToast (s.tabSwitchCount + 1)
             (s.tabSwitchCount + 1 + s.fullscreenExitCount))
      ↔ (hidden = true ∧ s.isSubmitted = false ∧ s.permissionsGranted = true)) ∧
    ((hidden = true ∧ s.isSubmitted = false ∧ s.permissionsGranted = true) ∨
      handleVisibilityChange s hidden ts = (s, [])) := by
  by_cases hG : hidden = true ∧ s.isSubmitted = false ∧ s.permissionsGranted = true
  · obtain ⟨h1, h2, h3⟩ := hG
    subst h1
    refine ⟨?_, Or.inl ⟨rfl, h2, h3⟩⟩
    simp [handleVisibilityChange, h2, h3]
  · have hB : (hidden && !s.isSubmitted && s.permissionsGranted) = false := by
      revert hG
      cases hidden <;> cases hs : s.isSubmitted <;>
        cases hp : s.permissionsGranted <;> simp
    refine ⟨⟨fun heq => ?_, fun h => absurd h hG⟩,
      Or.inr (by simp [handleVisibilityChange, hB])⟩
    exfalso
    have hproj := congrArg (fun p => p.1.tabSwitchCount) heq
    simp [handleVisibilityChange, hB] at hproj

/-- C5: with quiz data loaded and the session unsubmitted, `handleSubmit`
submits exactly when no blocking condition holds; the three refusal checks
apply in priority order — violation count first regardless of the other
flags, then the sticky permission violation, then inactive media — each
leaving the state unchanged with its own distinct toast; otherwise the quiz
is scored and marked submitted. -/
theorem C5_submit_gate (s : SessionState) (correct numQuestions : Nat)
    (hsub : s.isSubmitted = false) :
    ((handleSubmit s true correct numQuestions).1.isSubmitted = true
      ↔ (totalViolations s < 3 ∧ s.permissionViolated = false ∧
          s.permissionsGranted = true)) ∧
    (3 ≤ totalViolations s →
      handleSubmit s true correct numQuestions
        = (s, [blockedViolationsToast])) ∧
    (totalViolations s < 3 → s.permissionViolated = true →
      handleSubmit s true correct numQuestions
        = (s, [blockedPermissionToast])) ∧
    (totalViolations s < 3 → s.permissionViolated = false →
      s.permissionsGranted = false →
      handleSubmit s true correct numQuestions = (s, [blockedMediaToast])) ∧
    (totalViolations s < 3 → s.permissionViolated = false →
      s.permissionsGranted = true →
      handleSubmit s true correct numQuestions
        = ({ s with
              score := some (((correct : ℚ) / (numQuestions : ℚ)) * 100),
              isSubmitted := true },
           [submittedToast correct numQuestions])) ∧
    blockedViolationsToast ≠ blockedPermissionToast ∧
    blockedViolationsToast ≠ blockedMediaToast ∧
    blockedPermissionToast ≠ blockedMediaToast := by
  refine ⟨?_, ?_, ?_, ?_, ?_, by decide, by decide, by decide⟩
  · by_cases h3 : 3 ≤ totalViolations s
    · have hlt : ¬totalViolations s < 3 := by omega
      simp [handleSubmit, h3, hsub, hlt]
    · have hlt : totalViolations s < 3 := by omega
      by_cases hpv : s.permissionViolated = true
      · simp [handleSubmit, h3, hpv, hsub, hlt]
      · by_cases hpg : s.permissionsGranted = true
        · simp [handleSubmit, h3, hpv, hpg, hlt]
        · simp [handleSubmit, h3, hpv, hpg, hsub, hlt]
  · intro h3
    simp [handleSubmit, h3]
  · intro h3 hpv
    have h3' : ¬3 ≤ totalViolations s := by omega
    simp [handleSubmit, h3', hpv]
  · intro h3 hpv hpg
    have h3' : ¬3 ≤ totalViolations s := by omega
    simp [handleSubmit, h3', hpv, hpg]
  · intro h3 hpv hpg
    have h3' : ¬3 ≤ totalViolations s := by omega
    simp [handleSubmit, h3', hpv, hpg]

/-- Witness for C5 at a concrete clean state (permission granted, no
violations, unsubmitted): submission succeeds with the recorded score. -/
theorem C5_submit_gate_witness :
    ({ initState "sid-6" with permissionsGranted := true } : SessionState).isSubmitted
      = false ∧
    totalViolations { initState "sid-6" with permissionsGranted := true } < 3 ∧
    handleSubmit { initState "sid-6" with permissionsGranted := true } true 3 4
      = ({ { initState "sid-6" with permissionsGranted := true } with
            score := some ((((3 : Nat) : ℚ) / ((4 : Nat) : ℚ)) * 100),
            isSubmitted := true },
         [submittedToast 3 4]) :=
  ⟨rfl, by decide,
    (C5_submit_gate { initState "sid-6" with permissionsGranted := true } 3 4
        rfl).2.2.2.2.1 (by decide) rfl rfl⟩

/-- C8: for every export call on a reachable session state, the report
counters exactly equal the ledger counters at call time, the exported log
length equals the reported `totalViolations`, and the serialization is
persisted under the key `violation-log-` followed by the session id. -/
theorem C8_export_matches (s : SessionState) (now : String) (sc : Option ℚ)
    (hr : Reachable s) :
    (exportViolationLog s now sc).1.totalViolations = totalViolations s ∧
    (exportViolationLog s now sc).1.tabSwitchCount = s.tabSwitchCount ∧
    (exportViolationLog s now sc).1.fullscreenExitCount
      = s.fullscreenExitCount ∧
    (exportViolationLog s now sc).1.violationLog.length
      = (exportViolationLog s now sc).1.totalViolations ∧
    (exportViolationLog s now sc).2 = "violation-log-" ++ s.sessionId := by
  obtain ⟨sid, events, rfl⟩ := hr
  obtain ⟨h1, h2, h3⟩ :=
    ledgerInv_run (initState sid) events (ledgerInv_init sid)
  exact ⟨rfl, rfl, rfl, by simpa [exportViolationLog] using h3, rfl⟩

/-- Witness for C8 at a concrete reachable state: one granted acquisition
followed by one recorded tab switch, then an export. -/
theorem C8_export_matches_witness :
    (exportViolationLog
        (run (initState "sid-7")
          [Event.mediaSuccess, Event.visibilityChange true "t1"])
        "now" none).1.totalViolations
      = totalViolations
          (run (initState "sid-7")
            [Event.mediaSuccess, Event.visibilityChange true "t1"]) ∧
    (exportViolationLog
        (run (initState "sid-7")
          [Event.mediaSuccess, Event.visibilityChange true "t1"])
        "now" none).1.tabSwitchCount
      = (run (initState "sid-7")
          [Event.mediaSuccess, Event.visibilityChange true "t1"]).tabSwitchCount ∧
    (exportViolationLog
        (run (initState "sid-7")
          [Event.mediaSuccess, Event.visibilityChange true "t1"])
        "now" none).1.fullscreenExitCount
      = (run (initState "sid-7")
          [Event.mediaSuccess, Event.visibilityChange true "t1"]).fullscreenExitCount ∧
    (exportViolationLog
        (run (initState "sid-7")
          [Event.mediaSuccess, Event.visibilityChange true "t1"])
        "now" none).1.violationLog.length
      = (exportViolationLog
          (run (initState "sid-7")
            [Event.mediaSuccess, Event.visibilityChange true "t1"])
          "now" none).1.totalViolations ∧
    (exportViolationLog
        (run (initState "sid-7")
          [Event.mediaSuccess, Event.visibilityChange true "t1"])
        "now" none).2
      = "violation-log-" ++
          (run (initState "sid-7")
            [Event.mediaSuccess, Event.visibilityChange true "t1"]).sessionId :=
  C8_export_matches
    (run (initState "sid-7") [Event.mediaSuccess, Event.visibilityChange true "t1"])
    "now" none
    ⟨"sid-7", [Event.mediaSuccess, Event.visibilityChange true "t1"], rfl⟩

/-- C10: exporting with a score of exactly 0 stores `null` — the JS
coercion `score || null` erases a legitimate zero score, so the report is
identical to one exported with no score supplied. -/
theorem C10_zero_score_exported_null (s : SessionState) (now : String) :
    (exportViolationLog s now (some 0)).1.score = none ∧
    exportViolationLog s now (some 0) = exportViolationLog s now none := by
  constructor <;> simp [exportViolationLog, scoreOrNull]

lemma sendImage_attempts_le (outcomes : List Bool) (rc f : Nat) :
    (sendImageToBackend outcomes rc f).attempts ≤ 1 + (2 - rc) := by
  induction outcomes generalizing rc f with
  | nil => simp [sendImageToBackend]
  | cons ok rest ih =>
    cases ok
    · simp only [sendImageToBackend]
      split
      · simp_all
      · split
        · have := ih (rc + 1) (f + 1)
          simp only
          omega
        · simp
    · simp [sendImageToBackend]

lemma sendImage_delays_all (outcomes : List Bool) (rc f : Nat) :
    (sendImageToBackend outcomes rc f).scheduledDelays.all
      (fun d => d == retryBackoffMs) = true := by
  induction outcomes generalizing rc f with
  | nil => rfl
  | cons ok rest ih =>
    cases ok
    · simp only [sendImageToBackend]
      split
      · simp_all
      · split
        · simpa using ih (rc + 1) (f + 1)
        · rfl
    · rfl

/-- C3 counterexample: three consecutive delivery failures of one frame
leave `imageCaptureFailures` at 3, not at 1 as the claim states — the
source increments the counter on every failed attempt, not once per
exhausted frame. -/
theorem C3_counterexample :
    (sendImageToBackend [false, false, false] 0 0).failures = 3 ∧
    (sendImageToBackend [false, false, false] 0 0).failures ≠ 1 := by
  decide

/-- C3 amended: every failed attempt increments `imageCaptureFailures` by
one, so an all-failed frame (initial attempt + 2 retries, each retry after
the fixed 2-second backoff, at most 3 attempts per frame) leaves the
counter exactly 3 higher; any successful delivery resets it to 0. -/
theorem C3_retry_accounting (failures0 : Nat) (outcomes rest : List Bool) :
    sendImageToBackend [false, false, false] 0 failures0
      = ⟨failures0 + 3, 3, [retryBackoffMs, retryBackoffMs]⟩ ∧
    sendImageToBackend (true :: rest) 0 failures0 = ⟨0, 1, []⟩ ∧
    (sendImageToBackend outcomes 0 failures0).attempts ≤ 3 ∧
    (sendImageToBackend outcomes 0 failures0).scheduledDelays.all
      (fun d => d == retryBackoffMs) = true := by
  refine ⟨?_, by simp [sendImageToBackend], ?_,
    sendImage_delays_all outcomes 0 failures0⟩
  · simp only [sendImageToBackend]
    norm_num
  · have := sendImage_attempts_le outcomes 0 failures0
    omega

/-- C4 counterexample: from a granted, unsubmitted session, two tab
switches followed by one fullscreen exit bring the post-write running
total to 3, yet the third recording fires the per-kind
`1st violation` notice, not the `exam invalidated` notice — the else-if
chain tests the per-kind count before the running total. -/
theorem C4_counterexample :
    totalViolations
        (step
          (run (initState "sid-4")
            [Event.mediaSuccess, Event.visibilityChange true "t1",
             Event.visibilityChange true "t2"])
          (Event.fullscreenChange false "t3")).1 = 3 ∧
    (step
        (run (initState "sid-4")
          [Event.mediaSuccess, Event.visibilityChange true "t1",
           Event.visibilityChange true "t2"])
        (Event.fullscreenChange false "t3")).2 = [fsFirstToast] ∧
    fsFirstToast ≠ invalidatedToast := by
  refine ⟨by decide, by decide, by decide⟩

lemma classifyWarning_per_kind (first second : Toast) (newCount total : Nat)
    (hle : newCount ≤ total) (h1 : 1 ≤ newCount) :
    classifyWarning first second newCount total
      = (if newCount = 1 then [first]
         else if newCount = 2 then [second]
         else [invalidatedToast]) := by
  unfold classifyWarning
  by_cases e1 : newCount = 1
  · simp [e1]
  · by_cases e2 : newCount = 2
    · simp [e1, e2]
    · have h3 : 3 ≤ total := by omega
      simp [e1, e2, h3]

/-- C4 amended: each recording classifies its warning from the per-kind
counter value produced by this write — the first record of a kind fires
the `1st violation` notice, the second of that kind the `2nd violation`
notice, and the third or later of that kind the `exam invalidated` notice
(whose guard on the post-write running total then always holds, so it can
fire repeatedly); the write that brings the mixed-kind total to 3 is not
specially classified, and records of different kinds can each be labeled
`1st violation`. -/
theorem C4_per_kind_classification (s : SessionState) (ts : String)
    (hsub : s.isSubmitted = false) (hperm : s.permissionsGranted = true) :
    (handleVisibilityChange s true ts).2
      = (if s.tabSwitchCount + 1 = 1 then [tabFirstToast]
         else if s.tabSwitchCount + 1 = 2 then [tabSecondToast]
         else [invalidatedToast]) ∧
    (handleFullscreenChange s false ts).2
      = (if s.fullscreenExitCount + 1 = 1 then [fsFirstToast]
         else if s.fullscreenExitCount + 1 = 2 then [fsSecondToast]
         else [invalidatedToast]) := by
  constructor
  · have h := classifyWarning_per_kind tabFirstToast tabSecondToast
      (s.tabSwitchCount + 1) (s.tabSwitchCount + 1 + s.fullscreenExitCount)
      (by omega) (by omega)
    simpa [handleVisibilityChange, hsub, hperm] using h
  · have h := classifyWarning_per_kind fsFirstToast fsSecondToast
      (s.fullscreenExitCount + 1) (s.tabSwitchCount + (s.fullscreenExitCount + 1))
      (by omega) (by omega)
    simpa [handleFullscreenChange, hsub, hperm] using h

/-- Witness for the amended C4: with two prior tab switches, a third tab
switch is classified invalidated while a first fullscreen exit from the
same state is classified a 1st violation. -/
theorem C4_per_kind_classification_witness :
    (handleVisibilityChange
        { initState "sid-5" with permissionsGranted := true, tabSwitchCount := 2 }
        true "t").2 = [invalidatedToast] ∧
    (handleFullscreenChange
        { initState "sid-5" with permissionsGranted := true, tabSwitchCount := 2 }
        false "t").2 = [fsFirstToast] := by
  have h := C4_per_kind_classification
    { initState "sid-5" with permissionsGranted := true, tabSwitchCount := 2 }
    "t" rfl rfl
  simpa [initState] using h

/-- C7 counterexample: teardown with a frame-delivery retry in flight does
not cancel that retry — the source never stores the `setTimeout` handle,
so `cleanupMedia` clears only the two interval refs and the pending
retry still fires afterwards. -/
theorem C7_counterexample :
    (cleanupMedia
        { intervalRef := true, captureIntervalRef := true,
          retryTimeoutPending := true }).retryTimeoutPending = true ∧
    cleanupMedia
        { intervalRef := true, captureIntervalRef := true,
          retryTimeoutPending := true }
      ≠ { intervalRef := false, captureIntervalRef := false,
          retryTimeoutPending := false } := by
  decide

/-- C7 amended: `cleanupMedia` cancels the 2-second liveness poll interval
and the 4-second capture interval, but holds no handle to an in-flight
2-second delivery-retry timer, which is left pending and may still fire
after teardown. -/
theorem C7_cleanup_cancels_intervals_only (t : MediaTimers) :
    (cleanupMedia t).intervalRef = false ∧
    (cleanupMedia t).captureIntervalRef = false ∧
    (cleanupMedia t).retryTimeoutPending = t.retryTimeoutPending :=
  ⟨rfl, rfl, rfl⟩

end Proctoring
